import Mathlib

/-!
Verification of the tic-tac-toe core: the outcome evaluator `isGameOver`,
the threat detector `playerCanWin`, and the move strategies `ai_random`,
`ai_smart`, `ai_genious` (composed by `nextComputerMove`).

The board is embedded as a function `Fin 3 → Fin 3 → CellState`, where
`CellState` carries the numeric values of the source enumeration
(EMPTY = 0, USER = 7, COMPUTER = 11) through `CellState.val`, so that the
sum arithmetic of the threat detector is reproduced exactly.  The C library
random source of `ai_random` is modelled as an explicit stream of sampled
cells together with a fuel bound on the number of loop iterations.
-/

namespace TicTacToe

/-- Cell contents, from the source enumeration: EMPTY = 0, USER = 7,
COMPUTER = 11 (distinct primes so line sums identify configurations). -/
inductive CellState
  | EMPTY
  | USER
  | COMPUTER
deriving DecidableEq, Fintype

/-- The numeric value of a cell state, exactly the source enumeration. -/
def CellState.val : CellState → Nat
  | .EMPTY => 0
  | .USER => 7
  | .COMPUTER => 11

/-- Game status code IN_PROGRESS, from the source enumeration
`IN_PROGRESS=0, USER_WON=USER, COMPUTER_WON=COMPUTER, DRAW` (the last
enumerator takes the next integer after COMPUTER_WON, hence 12). -/
def IN_PROGRESS : Nat := 0

/-- Status code for a user win (= USER = 7). -/
def USER_WON : Nat := CellState.USER.val

/-- Status code for a computer win (= COMPUTER = 11). -/
def COMPUTER_WON : Nat := CellState.COMPUTER.val

/-- Status code for a draw (next enumerator after COMPUTER_WON = 11). -/
def DRAW : Nat := 12

/-- Strategy code for the RANDOM strategy. -/
def RANDOM : Nat := 0

/-- Strategy code for the SMART strategy. -/
def SMART : Nat := 1

/-- Strategy code for the GENIOUS strategy. -/
def GENIOUS : Nat := 2

/-- The board: a 3x3 grid of cell states indexed by (row, column). -/
abbrev Board := Fin 3 → Fin 3 → CellState

/-- Container for a board location, as in the source `struct Cell`:
a pair of `int` coordinates, so that the sentinel (-1,-1) is expressible. -/
structure Cell where
  row : Int
  col : Int
deriving DecidableEq

/-- Build a board from its nine cells, row by row. -/
def mkBoard (a00 a01 a02 a10 a11 a12 a20 a21 a22 : CellState) : Board :=
  fun r c =>
    match r.val, c.val with
    | 0, 0 => a00
    | 0, 1 => a01
    | 0, _ => a02
    | 1, 0 => a10
    | 1, 1 => a11
    | 1, _ => a12
    | 2, 0 => a20
    | 2, 1 => a21
    | _, _ => a22

/-- The all-empty starting board (`int board[3][3] = {}`). -/
def emptyBoard : Board := fun _ _ => .EMPTY

/-- Write one cell of the board, coordinates given as `Fin 3`. -/
def setCell (b : Board) (r c : Fin 3) (v : CellState) : Board :=
  fun r' c' => if r' = r ∧ c' = c then v else b r' c'

/-- Write one cell of the board, coordinates given as `int` values, as in
`board[c.row][c.col] = COMPUTER` on a `Cell` returned by the detector.
Out-of-range coordinates touch nothing (they never occur in the program). -/
def setI (b : Board) (r c : Int) (v : CellState) : Board :=
  fun r' c' => if (r'.val : Int) = r ∧ (c'.val : Int) = c then v else b r' c'

/-- The row scan step of `playerCanWin`: if row `r` sums to the target,
return its first EMPTY cell (none continues the scan). -/
def rowWin (board : Board) (target : Nat) (r : Fin 3) : Option Cell :=
  if (board r 0).val + (board r 1).val + (board r 2).val = target then
    if board r 0 = .EMPTY then some ⟨(r.val : Int), ((0 : Fin 3).val : Int)⟩
    else if board r 1 = .EMPTY then some ⟨(r.val : Int), ((1 : Fin 3).val : Int)⟩
    else if board r 2 = .EMPTY then some ⟨(r.val : Int), ((2 : Fin 3).val : Int)⟩
    else none
  else none

/-- The column scan step of `playerCanWin`: if column `c` sums to the
target, return its first EMPTY cell (none continues the scan). -/
def colWin (board : Board) (target : Nat) (c : Fin 3) : Option Cell :=
  if (board 0 c).val + (board 1 c).val + (board 2 c).val = target then
    if board 0 c = .EMPTY then some ⟨((0 : Fin 3).val : Int), (c.val : Int)⟩
    else if board 1 c = .EMPTY then some ⟨((1 : Fin 3).val : Int), (c.val : Int)⟩
    else if board 2 c = .EMPTY then some ⟨((2 : Fin 3).val : Int), (c.val : Int)⟩
    else none
  else none

/-- The left-to-right diagonal step of `playerCanWin`. -/
def diagWinLtr (board : Board) (target : Nat) : Option Cell :=
  if (board 0 0).val + (board 1 1).val + (board 2 2).val = target then
    if board 0 0 = .EMPTY then some ⟨((0 : Fin 3).val : Int), ((0 : Fin 3).val : Int)⟩
    else if board 1 1 = .EMPTY then some ⟨((1 : Fin 3).val : Int), ((1 : Fin 3).val : Int)⟩
    else if board 2 2 = .EMPTY then some ⟨((2 : Fin 3).val : Int), ((2 : Fin 3).val : Int)⟩
    else none
  else none

/-- The right-to-left diagonal step of `playerCanWin`. -/
def diagWinRtl (board : Board) (target : Nat) : Option Cell :=
  if (board 0 2).val + (board 1 1).val + (board 2 0).val = target then
    if board 0 2 = .EMPTY then some ⟨((0 : Fin 3).val : Int), ((2 : Fin 3).val : Int)⟩
    else if board 1 1 = .EMPTY then some ⟨((1 : Fin 3).val : Int), ((1 : Fin 3).val : Int)⟩
    else if board 2 0 = .EMPTY then some ⟨((2 : Fin 3).val : Int), ((0 : Fin 3).val : Int)⟩
    else none
  else none

/-- The threat detector `playerCanWin(board, which)`: target sum is
`which * 2`; scan rows 0..2, then columns 0..2, then the two diagonals,
returning at the first axis whose sum matches the target the first EMPTY
cell on it; `Cell (-1) (-1)` if no axis matches. -/
def playerCanWin (board : Board) (which : Nat) : Cell :=
  let target := which * 2
  (rowWin board target 0 <|> rowWin board target 1 <|> rowWin board target 2 <|>
   colWin board target 0 <|> colWin board target 1 <|> colWin board target 2 <|>
   diagWinLtr board target <|> diagWinRtl board target).getD ⟨-1, -1⟩

/-- `userCanWin(board)` = `playerCanWin(board, USER)`. -/
def userCanWin (board : Board) : Cell :=
  playerCanWin board CellState.USER.val

/-- `computerCanWin(board)` = `playerCanWin(board, COMPUTER)`. -/
def computerCanWin (board : Board) : Cell :=
  playerCanWin board CellState.COMPUTER.val

/-- The sampling loop of `ai_random`: sample index `i` of the stream `s`;
if the sampled cell is not EMPTY try again at `i+1`, else return the cell.
`fuel` bounds the number of iterations modelled. -/
def randScan (board : Board) (s : Nat → Fin 3 × Fin 3) : Nat → Nat → Option (Fin 3 × Fin 3)
  | _, 0 => none
  | i, fuel + 1 =>
    if board (s i).1 (s i).2 ≠ .EMPTY then randScan board s (i + 1) fuel
    else some (s i)

/-- `ai_random(board)`: repeatedly sample a random cell until an EMPTY one
is found, then claim it for COMPUTER.  The C library random source is the
stream `s` of sampled cells; `none` means the loop did not find an EMPTY
cell within `fuel` iterations. -/
def ai_random (board : Board) (s : Nat → Fin 3 × Fin 3) (fuel : Nat) : Option Board :=
  match randScan board s 0 fuel with
  | some q => some (setCell board q.1 q.2 .COMPUTER)
  | none => none

/-- `ai_smart(board)`: prefer the centre B1; else the first free corner in
the order (0,0), (0,2), (2,0), (2,2); else fall back to `ai_random`. -/
def ai_smart (board : Board) (s : Nat → Fin 3 × Fin 3) (fuel : Nat) : Option Board :=
  if board 1 1 = .EMPTY then some (setCell board 1 1 .COMPUTER)
  else if board 0 0 = .EMPTY then some (setCell board 0 0 .COMPUTER)
  else if board 0 2 = .EMPTY then some (setCell board 0 2 .COMPUTER)
  else if board 2 0 = .EMPTY then some (setCell board 2 0 .COMPUTER)
  else if board 2 2 = .EMPTY then some (setCell board 2 2 .COMPUTER)
  else ai_random board s fuel

/-- `ai_genious(board)`: claim the centre if EMPTY; else claim the cell of
`computerCanWin` if its coordinates are nonnegative; else claim the cell
of `userCanWin` if its coordinates are nonnegative; else `ai_smart`. -/
def ai_genious (board : Board) (s : Nat → Fin 3 × Fin 3) (fuel : Nat) : Option Board :=
  if board 1 1 = .EMPTY then some (setCell board 1 1 .COMPUTER)
  else if 0 ≤ (computerCanWin board).row ∧ 0 ≤ (computerCanWin board).col then
    some (setI board (computerCanWin board).row (computerCanWin board).col .COMPUTER)
  else if 0 ≤ (userCanWin board).row ∧ 0 ≤ (userCanWin board).col then
    some (setI board (userCanWin board).row (userCanWin board).col .COMPUTER)
  else ai_smart board s fuel

/-- `nextComputerMove(board, strategy)`: dispatch on the strategy code;
the RANDOM case and the default case both run `ai_random`. -/
def nextComputerMove (board : Board) (strategy : Nat) (s : Nat → Fin 3 × Fin 3)
    (fuel : Nat) : Option Board :=
  if strategy = SMART then ai_smart board s fuel
  else if strategy = GENIOUS then ai_genious board s fuel
  else ai_random board s fuel

/-- The middle-square win test of `isGameOver` for one player: the four
edge middles each carry one axis, the centre B1 carries four. -/
def wonCheck (board : Board) (player : CellState) : Bool :=
  (board 0 1 == player && board 0 0 == player && board 0 2 == player)
  || (board 1 0 == player && board 0 0 == player && board 2 0 == player)
  || (board 2 1 == player && board 2 0 == player && board 2 2 == player)
  || (board 1 2 == player && board 0 2 == player && board 2 2 == player)
  || (board 1 1 == player &&
       ((board 0 1 == player && board 2 1 == player)
        || (board 1 0 == player && board 1 2 == player)
        || (board 0 0 == player && board 2 2 == player)
        || (board 2 0 == player && board 0 2 == player)))

/-- The final scan of `isGameOver`: some cell is still EMPTY. -/
def moreMoves (board : Board) : Bool :=
  (List.finRange 3).any fun col =>
    (List.finRange 3).any fun row => board row col == .EMPTY

/-- `isGameOver(board)`: check USER then COMPUTER for a completed axis
(the player loop runs 7 then 11); with no winner, IN_PROGRESS when a cell
is EMPTY, else DRAW. -/
def isGameOver (board : Board) : Nat :=
  if wonCheck board .USER then USER_WON
  else if wonCheck board .COMPUTER then COMPUTER_WON
  else if moreMoves board then IN_PROGRESS
  else DRAW

/-- The 8 winning lines in the detector scan order of the spec: rows,
then columns, then the two diagonals, each line listed in scan order. -/
def LINES : List (List (Fin 3 × Fin 3)) :=
  [[(0, 0), (0, 1), (0, 2)],
   [(1, 0), (1, 1), (1, 2)],
   [(2, 0), (2, 1), (2, 2)],
   [(0, 0), (1, 0), (2, 0)],
   [(0, 1), (1, 1), (2, 1)],
   [(0, 2), (1, 2), (2, 2)],
   [(0, 0), (1, 1), (2, 2)],
   [(0, 2), (1, 1), (2, 0)]]

/-- Modelled from the spec, section 4.2: a line is winnable-in-one for a
player when it has exactly two cells owned by that player and exactly one
EMPTY cell. -/
def lineQualifies (b : Board) (p : CellState) (l : List (Fin 3 × Fin 3)) : Bool :=
  l.countP (fun q => b q.1 q.2 == p) == 2 && l.countP (fun q => b q.1 q.2 == .EMPTY) == 1

/-- Modelled from the spec, section 4.2: the threat detector in the words
of the spec — the EMPTY cell of the first winnable-in-one line in the
fixed scan order, none when no line qualifies.  Written from the spec to
be compared against `playerCanWin`, which is written from the source. -/
def specFind (b : Board) (p : CellState) : Option (Fin 3 × Fin 3) :=
  (LINES.find? (lineQualifies b p)).bind fun l =>
    l.find? fun q => b q.1 q.2 == .EMPTY

/-- A player owns a complete winning line. -/
def ownsLine (b : Board) (p : CellState) : Prop :=
  ∃ l ∈ LINES, ∀ q ∈ l, b q.1 q.2 = p

instance (b : Board) (p : CellState) : Decidable (ownsLine b p) := by
  unfold ownsLine
  infer_instance

/-- The other player (identity on EMPTY, which is not a player). -/
def otherPlayer : CellState → CellState
  | .EMPTY => .EMPTY
  | .USER => .COMPUTER
  | .COMPUTER => .USER

/-- The frame condition of a strategy call: exactly one cell changed, it
was EMPTY before, it is COMPUTER after, and all other cells kept their
contents. -/
def movedOne (b b' : Board) : Prop :=
  ∃ r c : Fin 3, b r c = .EMPTY ∧ b' r c = .COMPUTER ∧
    ∀ r' c' : Fin 3, ¬(r' = r ∧ c' = c) → b' r' c' = b r' c'

/-- A location as a `Cell` value, coordinates cast from `Fin 3`. -/
def toCell (q : Fin 3 × Fin 3) : Cell :=
  ⟨(q.1.val : Int), (q.2.val : Int)⟩

/-- Detector outcome as a `Cell` value: found cell, or the sentinel. -/
def cellOfOpt : Option (Fin 3 × Fin 3) → Cell
  | some q => toCell q
  | none => ⟨-1, -1⟩

/-- Winnable-in-one condition on the three cells of a line. -/
def qual3 (p x y z : CellState) : Bool :=
  [x, y, z].countP (fun t => t == p) == 2 && [x, y, z].countP (fun t => t == .EMPTY) == 1

/-- First EMPTY cell among the three cells of a line with locations
`qu qv qw`; matches the reduction of `List.find?` on a three-element
line. -/
def find3 (x y z : CellState) (qu qv qw : Fin 3 × Fin 3) : Option (Fin 3 × Fin 3) :=
  match x == CellState.EMPTY with
  | true => some qu
  | false =>
    match y == CellState.EMPTY with
    | true => some qv
    | false =>
      match z == CellState.EMPTY with
      | true => some qw
      | false => none

/-- A fixed covering sample stream: index n samples cell (n % 3, n / 3 % 3),
so the first nine indices enumerate the whole board. -/
def sEnum : Nat → Fin 3 × Fin 3 :=
  fun n => (⟨n % 3, Nat.mod_lt _ (by decide)⟩, ⟨n / 3 % 3, Nat.mod_lt _ (by decide)⟩)

/-- A degenerate sample stream, used where the random source is not
reached. -/
def s0 : Nat → Fin 3 × Fin 3 := fun _ => (0, 0)

/-- Board with USER at (0,0) and (0,1), all other cells EMPTY. -/
def bTwoUsers : Board :=
  mkBoard .USER .USER .EMPTY .EMPTY .EMPTY .EMPTY .EMPTY .EMPTY .EMPTY

/-- Board with USER at (0,0) and (0,1), COMPUTER at the centre,
all other cells EMPTY. -/
def bTwoUsersCenterB : Board :=
  mkBoard .USER .USER .EMPTY .EMPTY .COMPUTER .EMPTY .EMPTY .EMPTY .EMPTY

/-- Board with COMPUTER at (0,0) and (0,1), all other cells EMPTY. -/
def bTwoComps : Board :=
  mkBoard .COMPUTER .COMPUTER .EMPTY .EMPTY .EMPTY .EMPTY .EMPTY .EMPTY .EMPTY

/-- Board with COMPUTER at (0,0) and (0,1), USER at the centre,
all other cells EMPTY. -/
def bTwoCompsCenterU : Board :=
  mkBoard .COMPUTER .COMPUTER .EMPTY .EMPTY .USER .EMPTY .EMPTY .EMPTY .EMPTY

/-- Unreachable board on which both players own a complete row. -/
def bDoubleWin : Board :=
  mkBoard .USER .USER .USER .COMPUTER .COMPUTER .COMPUTER .EMPTY .EMPTY .EMPTY

/-- Board with USER owning row 0, all other cells EMPTY. -/
def bUserRow : Board :=
  mkBoard .USER .USER .USER .EMPTY .EMPTY .EMPTY .EMPTY .EMPTY .EMPTY

/-- A full board on which no player owns a line. -/
def bDraw : Board :=
  mkBoard .USER .COMPUTER .USER .USER .COMPUTER .COMPUTER .COMPUTER .USER .USER

theorem step_eq (p : CellState) (hp : p = .USER ∨ p = .COMPUTER)
    (x y z : CellState) (qu qv qw : Fin 3 × Fin 3) :
    (if x.val + y.val + z.val = p.val * 2 then
       if x = .EMPTY then some (toCell qu)
       else if y = .EMPTY then some (toCell qv)
       else if z = .EMPTY then some (toCell qw)
       else none
     else none)
    = (if qual3 p x y z = true then find3 x y z qu qv qw else none).map toCell := by
  rcases hp with h | h <;> subst h <;> cases x <;> cases y <;> cases z <;> rfl

theorem find3_isSome (p : CellState) (hp : p = .USER ∨ p = .COMPUTER)
    (x y z : CellState) (qu qv qw : Fin 3 × Fin 3) (h : qual3 p x y z = true) :
    ∃ q, find3 x y z qu qv qw = some q := by
  rcases hp with h' | h' <;> subst h' <;> cases x <;> cases y <;> cases z <;>
    first
      | exact ⟨_, rfl⟩
      | exact absurd h (by decide)

theorem find?_bind_cons {α β : Type} (q : α → Bool) (g : α → Option β)
    (a : α) (l : List α) :
    ((a :: l).find? q).bind g = if q a = true then g a else (l.find? q).bind g := by
  cases h : q a <;> simp [List.find?_cons, h]

theorem rowWin_eq (p : CellState) (hp : p = .USER ∨ p = .COMPUTER) (b : Board) (r : Fin 3) :
    rowWin b (p.val * 2) r =
      (if qual3 p (b r 0) (b r 1) (b r 2) = true
       then find3 (b r 0) (b r 1) (b r 2) (r, 0) (r, 1) (r, 2) else none).map toCell :=
  step_eq p hp (b r 0) (b r 1) (b r 2) (r, 0) (r, 1) (r, 2)

theorem colWin_eq (p : CellState) (hp : p = .USER ∨ p = .COMPUTER) (b : Board) (c : Fin 3) :
    colWin b (p.val * 2) c =
      (if qual3 p (b 0 c) (b 1 c) (b 2 c) = true
       then find3 (b 0 c) (b 1 c) (b 2 c) (0, c) (1, c) (2, c) else none).map toCell :=
  step_eq p hp (b 0 c) (b 1 c) (b 2 c) (0, c) (1, c) (2, c)

theorem diagWinLtr_eq (p : CellState) (hp : p = .USER ∨ p = .COMPUTER) (b : Board) :
    diagWinLtr b (p.val * 2) =
      (if qual3 p (b 0 0) (b 1 1) (b 2 2) = true
       then find3 (b 0 0) (b 1 1) (b 2 2) (0, 0) (1, 1) (2, 2) else none).map toCell :=
  step_eq p hp (b 0 0) (b 1 1) (b 2 2) (0, 0) (1, 1) (2, 2)

theorem diagWinRtl_eq (p : CellState) (hp : p = .USER ∨ p = .COMPUTER) (b : Board) :
    diagWinRtl b (p.val * 2) =
      (if qual3 p (b 0 2) (b 1 1) (b 2 0) = true
       then find3 (b 0 2) (b 1 1) (b 2 0) (0, 2) (1, 1) (2, 0) else none).map toCell :=
  step_eq p hp (b 0 2) (b 1 1) (b 2 0) (0, 2) (1, 1) (2, 0)

theorem specFind_unfold (b : Board) (p : CellState) :
    specFind b p =
      (if qual3 p (b 0 0) (b 0 1) (b 0 2) = true
       then find3 (b 0 0) (b 0 1) (b 0 2) (0, 0) (0, 1) (0, 2)
       else if qual3 p (b 1 0) (b 1 1) (b 1 2) = true
       then find3 (b 1 0) (b 1 1) (b 1 2) (1, 0) (1, 1) (1, 2)
       else if qual3 p (b 2 0) (b 2 1) (b 2 2) = true
       then find3 (b 2 0) (b 2 1) (b 2 2) (2, 0) (2, 1) (2, 2)
       else if qual3 p (b 0 0) (b 1 0) (b 2 0) = true
       then find3 (b 0 0) (b 1 0) (b 2 0) (0, 0) (1, 0) (2, 0)
       else if qual3 p (b 0 1) (b 1 1) (b 2 1) = true
       then find3 (b 0 1) (b 1 1) (b 2 1) (0, 1) (1, 1) (2, 1)
       else if qual3 p (b 0 2) (b 1 2) (b 2 2) = true
       then find3 (b 0 2) (b 1 2) (b 2 2) (0, 2) (1, 2) (2, 2)
       else if qual3 p (b 0 0) (b 1 1) (b 2 2) = true
       then find3 (b 0 0) (b 1 1) (b 2 2) (0, 0) (1, 1) (2, 2)
       else if qual3 p (b 0 2) (b 1 1) (b 2 0) = true
       then find3 (b 0 2) (b 1 1) (b 2 0) (0, 2) (1, 1) (2, 0)
       else none) := by
  simp only [specFind, LINES]
  rw [find?_bind_cons, find?_bind_cons, find?_bind_cons, find?_bind_cons,
    find?_bind_cons, find?_bind_cons, find?_bind_cons, find?_bind_cons]
  rfl

theorem playerCanWin_eq_specFind (b : Board) (p : CellState)
    (hp : p = .USER ∨ p = .COMPUTER) :
    playerCanWin b p.val = cellOfOpt (specFind b p) := by
  rw [specFind_unfold]
  show (rowWin b (p.val * 2) 0 <|> rowWin b (p.val * 2) 1 <|> rowWin b (p.val * 2) 2 <|>
    colWin b (p.val * 2) 0 <|> colWin b (p.val * 2) 1 <|> colWin b (p.val * 2) 2 <|>
    diagWinLtr b (p.val * 2) <|> diagWinRtl b (p.val * 2)).getD ⟨-1, -1⟩ = _
  rw [rowWin_eq p hp b 0, rowWin_eq p hp b 1, rowWin_eq p hp b 2,
    colWin_eq p hp b 0, colWin_eq p hp b 1, colWin_eq p hp b 2,
    diagWinLtr_eq p hp b, diagWinRtl_eq p hp b]
  by_cases h1 : qual3 p (b 0 0) (b 0 1) (b 0 2) = true
  · obtain ⟨q, hq⟩ := find3_isSome p hp _ _ _ (0, 0) (0, 1) (0, 2) h1
    rw [if_pos h1, if_pos h1, hq]
    simp [cellOfOpt]
  · rw [if_neg h1, if_neg h1]
    simp only [Option.map_none', Option.none_orElse]
    by_cases h2 : qual3 p (b 1 0) (b 1 1) (b 1 2) = true
    · obtain ⟨q, hq⟩ := find3_isSome p hp _ _ _ (1, 0) (1, 1) (1, 2) h2
      rw [if_pos h2, if_pos h2, hq]
      simp [cellOfOpt]
    · rw [if_neg h2, if_neg h2]
      simp only [Option.map_none', Option.none_orElse]
      by_cases h3 : qual3 p (b 2 0) (b 2 1) (b 2 2) = true
      · obtain ⟨q, hq⟩ := find3_isSome p hp _ _ _ (2, 0) (2, 1) (2, 2) h3
        rw [if_pos h3, if_pos h3, hq]
        simp [cellOfOpt]
      · rw [if_neg h3, if_neg h3]
        simp only [Option.map_none', Option.none_orElse]
        by_cases h4 : qual3 p (b 0 0) (b 1 0) (b 2 0) = true
        · obtain ⟨q, hq⟩ := find3_isSome p hp _ _ _ (0, 0) (1, 0) (2, 0) h4
          rw [if_pos h4, if_pos h4, hq]
          simp [cellOfOpt]
        · rw [if_neg h4, if_neg h4]
          simp only [Option.map_none', Option.none_orElse]
          by_cases h5 : qual3 p (b 0 1) (b 1 1) (b 2 1) = true
          · obtain ⟨q, hq⟩ := find3_isSome p hp _ _ _ (0, 1) (1, 1) (2, 1) h5
            rw [if_pos h5, if_pos h5, hq]
            simp [cellOfOpt]
          · rw [if_neg h5, if_neg h5]
            simp only [Option.map_none', Option.none_orElse]
            by_cases h6 : qual3 p (b 0 2) (b 1 2) (b 2 2) = true
            · obtain ⟨q, hq⟩ := find3_isSome p hp _ _ _ (0, 2) (1, 2) (2, 2) h6
              rw [if_pos h6, if_pos h6, hq]
              simp [cellOfOpt]
            · rw [if_neg h6, if_neg h6]
              simp only [Option.map_none', Option.none_orElse]
              by_cases h7 : qual3 p (b 0 0) (b 1 1) (b 2 2) = true
              · obtain ⟨q, hq⟩ := find3_isSome p hp _ _ _ (0, 0) (1, 1) (2, 2) h7
                rw [if_pos h7, if_pos h7, hq]
                simp [cellOfOpt]
              · rw [if_neg h7, if_neg h7]
                simp only [Option.map_none', Option.none_orElse]
                by_cases h8 : qual3 p (b 0 2) (b 1 1) (b 2 0) = true
                · obtain ⟨q, hq⟩ := find3_isSome p hp _ _ _ (0, 2) (1, 1) (2, 0) h8
                  rw [if_pos h8, hq]
                  simp [cellOfOpt]
                · rw [if_neg h8]
                  simp [cellOfOpt]

theorem specFind_isSome (b : Board) (p : CellState)
    (hq : ∃ l ∈ LINES, lineQualifies b p l = true) : ∃ q, specFind b p = some q := by
  obtain ⟨l, hl, hql⟩ := hq
  have h1 : (LINES.find? (lineQualifies b p)).isSome := by
    rw [List.find?_isSome]
    exact ⟨l, hl, hql⟩
  obtain ⟨l0, hl0⟩ := Option.isSome_iff_exists.mp h1
  have hq0 : lineQualifies b p l0 = true := List.find?_some hl0
  have hcount : l0.countP (fun q => b q.1 q.2 == .EMPTY) = 1 := by
    unfold lineQualifies at hq0
    simp only [Bool.and_eq_true, beq_iff_eq] at hq0
    exact hq0.2
  have hpos : 0 < l0.countP (fun q => b q.1 q.2 == .EMPTY) := by omega
  rw [List.countP_pos_iff] at hpos
  obtain ⟨a, ha, hae⟩ := hpos
  have h2 : (l0.find? (fun q => b q.1 q.2 == .EMPTY)).isSome := by
    rw [List.find?_isSome]
    exact ⟨a, ha, hae⟩
  obtain ⟨q0, hq0f⟩ := Option.isSome_iff_exists.mp h2
  refine ⟨q0, ?_⟩
  rw [specFind, hl0]
  simpa using hq0f

theorem specFind_empty (b : Board) (p : CellState) (q : Fin 3 × Fin 3)
    (h : specFind b p = some q) : b q.1 q.2 = .EMPTY := by
  unfold specFind at h
  cases hfl : LINES.find? (lineQualifies b p) with
  | none => rw [hfl] at h; simp at h
  | some l =>
    rw [hfl] at h
    simp only [Option.some_bind] at h
    have := List.find?_some h
    simpa using this

theorem specFind_mem (b : Board) (p : CellState) (q : Fin 3 × Fin 3)
    (h : specFind b p = some q) :
    ∃ l ∈ LINES, lineQualifies b p l = true ∧ q ∈ l := by
  unfold specFind at h
  cases hfl : LINES.find? (lineQualifies b p) with
  | none => rw [hfl] at h; simp at h
  | some l =>
    rw [hfl] at h
    simp only [Option.some_bind] at h
    exact ⟨l, List.mem_of_find?_eq_some hfl, List.find?_some hfl,
      List.mem_of_find?_eq_some h⟩

theorem specFind_none (b : Board) (p : CellState)
    (h : ∀ l ∈ LINES, lineQualifies b p l = false) : specFind b p = none := by
  rw [specFind, List.find?_eq_none.mpr]
  · rfl
  · intro l hl
    simp [h l hl]

theorem toCell_row (q : Fin 3 × Fin 3) : (toCell q).row = (q.1.val : Int) := rfl

theorem toCell_col (q : Fin 3 × Fin 3) : (toCell q).col = (q.2.val : Int) := rfl

theorem setI_coe (b : Board) (r c : Fin 3) (v : CellState) :
    setI b (r.val : Int) (c.val : Int) v = setCell b r c v := by
  funext r' c'
  by_cases h : r' = r ∧ c' = c
  · obtain ⟨rfl, rfl⟩ := h
    simp [setI, setCell]
  · have h2 : ¬((r'.val : Int) = (r.val : Int) ∧ (c'.val : Int) = (c.val : Int)) := by
      intro hx
      exact h ⟨Fin.val_injective (by exact_mod_cast hx.1),
        Fin.val_injective (by exact_mod_cast hx.2)⟩
    simp only [setI, setCell]
    rw [if_neg h2, if_neg h]

theorem ownsLine_iff (b : Board) (p : CellState) :
    ownsLine b p ↔
      (b 0 0 = p ∧ b 0 1 = p ∧ b 0 2 = p) ∨
      (b 1 0 = p ∧ b 1 1 = p ∧ b 1 2 = p) ∨
      (b 2 0 = p ∧ b 2 1 = p ∧ b 2 2 = p) ∨
      (b 0 0 = p ∧ b 1 0 = p ∧ b 2 0 = p) ∨
      (b 0 1 = p ∧ b 1 1 = p ∧ b 2 1 = p) ∨
      (b 0 2 = p ∧ b 1 2 = p ∧ b 2 2 = p) ∨
      (b 0 0 = p ∧ b 1 1 = p ∧ b 2 2 = p) ∨
      (b 0 2 = p ∧ b 1 1 = p ∧ b 2 0 = p) := by
  constructor
  · rintro ⟨l, hl, hq⟩
    fin_cases hl
    · exact Or.inl ⟨hq (0, 0) (by simp), hq (0, 1) (by simp), hq (0, 2) (by simp)⟩
    · exact Or.inr (Or.inl
        ⟨hq (1, 0) (by simp), hq (1, 1) (by simp), hq (1, 2) (by simp)⟩)
    · exact Or.inr (Or.inr (Or.inl
        ⟨hq (2, 0) (by simp), hq (2, 1) (by simp), hq (2, 2) (by simp)⟩))
    · exact Or.inr (Or.inr (Or.inr (Or.inl
        ⟨hq (0, 0) (by simp), hq (1, 0) (by simp), hq (2, 0) (by simp)⟩)))
    · exact Or.inr (Or.inr (Or.inr (Or.inr (Or.inl
        ⟨hq (0, 1) (by simp), hq (1, 1) (by simp), hq (2, 1) (by simp)⟩))))
    · exact Or.inr (Or.inr (Or.inr (Or.inr (Or.inr (Or.inl
        ⟨hq (0, 2) (by simp), hq (1, 2) (by simp), hq (2, 2) (by simp)⟩)))))
    · exact Or.inr (Or.inr (Or.inr (Or.inr (Or.inr (Or.inr (Or.inl
        ⟨hq (0, 0) (by simp), hq (1, 1) (by simp), hq (2, 2) (by simp)⟩))))))
    · exact Or.inr (Or.inr (Or.inr (Or.inr (Or.inr (Or.inr (Or.inr
        ⟨hq (0, 2) (by simp), hq (1, 1) (by simp), hq (2, 0) (by simp)⟩))))))
  · rintro (⟨h1, h2, h3⟩ | ⟨h1, h2, h3⟩ | ⟨h1, h2, h3⟩ | ⟨h1, h2, h3⟩ |
      ⟨h1, h2, h3⟩ | ⟨h1, h2, h3⟩ | ⟨h1, h2, h3⟩ | ⟨h1, h2, h3⟩)
    · exact ⟨[(0, 0), (0, 1), (0, 2)], by simp [LINES], by
        rintro q hq
        fin_cases hq <;> assumption⟩
    · exact ⟨[(1, 0), (1, 1), (1, 2)], by simp [LINES], by
        rintro q hq
        fin_cases hq <;> assumption⟩
    · exact ⟨[(2, 0), (2, 1), (2, 2)], by simp [LINES], by
        rintro q hq
        fin_cases hq <;> assumption⟩
    · exact ⟨[(0, 0), (1, 0), (2, 0)], by simp [LINES], by
        rintro q hq
        fin_cases hq <;> assumption⟩
    · exact ⟨[(0, 1), (1, 1), (2, 1)], by simp [LINES], by
        rintro q hq
        fin_cases hq <;> assumption⟩
    · exact ⟨[(0, 2), (1, 2), (2, 2)], by simp [LINES], by
        rintro q hq
        fin_cases hq <;> assumption⟩
    · exact ⟨[(0, 0), (1, 1), (2, 2)], by simp [LINES], by
        rintro q hq
        fin_cases hq <;> assumption⟩
    · exact ⟨[(0, 2), (1, 1), (2, 0)], by simp [LINES], by
        rintro q hq
        fin_cases hq <;> assumption⟩

theorem wonCheck_iff (b : Board) (p : CellState) :
    wonCheck b p = true ↔ ownsLine b p := by
  rw [ownsLine_iff]
  simp only [wonCheck, Bool.or_eq_true, Bool.and_eq_true, beq_iff_eq]
  constructor
  · rintro ((((⟨⟨h1, h2⟩, h3⟩ | ⟨⟨h1, h2⟩, h3⟩) | ⟨⟨h1, h2⟩, h3⟩) | ⟨⟨h1, h2⟩, h3⟩) |
      ⟨hc, ((⟨h1, h2⟩ | ⟨h1, h2⟩) | ⟨h1, h2⟩) | ⟨h1, h2⟩⟩)
    · exact Or.inl ⟨h2, h1, h3⟩
    · exact Or.inr (Or.inr (Or.inr (Or.inl ⟨h2, h1, h3⟩)))
    · exact Or.inr (Or.inr (Or.inl ⟨h2, h1, h3⟩))
    · exact Or.inr (Or.inr (Or.inr (Or.inr (Or.inr (Or.inl ⟨h2, h1, h3⟩)))))
    · exact Or.inr (Or.inr (Or.inr (Or.inr (Or.inl ⟨h1, hc, h2⟩))))
    · exact Or.inr (Or.inl ⟨h1, hc, h2⟩)
    · exact Or.inr (Or.inr (Or.inr (Or.inr (Or.inr (Or.inr (Or.inl ⟨h1, hc, h2⟩))))))
    · exact Or.inr (Or.inr (Or.inr (Or.inr (Or.inr (Or.inr (Or.inr ⟨h2, hc, h1⟩))))))
  · rintro (⟨h1, h2, h3⟩ | ⟨h1, h2, h3⟩ | ⟨h1, h2, h3⟩ | ⟨h1, h2, h3⟩ |
      ⟨h1, h2, h3⟩ | ⟨h1, h2, h3⟩ | ⟨h1, h2, h3⟩ | ⟨h1, h2, h3⟩)
    · exact Or.inl (Or.inl (Or.inl (Or.inl ⟨⟨h2, h1⟩, h3⟩)))
    · exact Or.inr ⟨h2, Or.inl (Or.inl (Or.inr ⟨h1, h3⟩))⟩
    · exact Or.inl (Or.inl (Or.inr ⟨⟨h2, h1⟩, h3⟩))
    · exact Or.inl (Or.inl (Or.inl (Or.inr ⟨⟨h2, h1⟩, h3⟩)))
    · exact Or.inr ⟨h2, Or.inl (Or.inl (Or.inl ⟨h1, h3⟩))⟩
    · exact Or.inl (Or.inr ⟨⟨h2, h1⟩, h3⟩)
    · exact Or.inr ⟨h2, Or.inl (Or.inr ⟨h1, h3⟩)⟩
    · exact Or.inr ⟨h2, Or.inr ⟨h3, h1⟩⟩

theorem moreMoves_iff (b : Board) :
    moreMoves b = true ↔ ∃ r c : Fin 3, b r c = .EMPTY := by
  simp only [moreMoves, List.any_eq_true, List.mem_finRange, beq_iff_eq, true_and]
  exact exists_comm

theorem isGameOver_user_won (b : Board) (h : ownsLine b .USER) :
    isGameOver b = USER_WON := by
  rw [isGameOver, if_pos ((wonCheck_iff b .USER).mpr h)]

theorem isGameOver_computer_won (b : Board) (h1 : ¬ ownsLine b .USER)
    (h2 : ownsLine b .COMPUTER) : isGameOver b = COMPUTER_WON := by
  have hu : ¬(wonCheck b .USER = true) := fun hh => h1 ((wonCheck_iff b .USER).mp hh)
  rw [isGameOver, if_neg hu, if_pos ((wonCheck_iff b .COMPUTER).mpr h2)]

theorem isGameOver_in_progress (b : Board) (h1 : ¬ ownsLine b .USER)
    (h2 : ¬ ownsLine b .COMPUTER) (h3 : ∃ r c : Fin 3, b r c = .EMPTY) :
    isGameOver b = IN_PROGRESS := by
  have hu : ¬(wonCheck b .USER = true) := fun hh => h1 ((wonCheck_iff b .USER).mp hh)
  have hc : ¬(wonCheck b .COMPUTER = true) := fun hh => h2 ((wonCheck_iff b .COMPUTER).mp hh)
  rw [isGameOver, if_neg hu, if_neg hc, if_pos ((moreMoves_iff b).mpr h3)]

theorem isGameOver_draw (b : Board) (h1 : ¬ ownsLine b .USER)
    (h2 : ¬ ownsLine b .COMPUTER) (h3 : ∀ r c : Fin 3, b r c ≠ .EMPTY) :
    isGameOver b = DRAW := by
  have hu : ¬(wonCheck b .USER = true) := fun hh => h1 ((wonCheck_iff b .USER).mp hh)
  have hc : ¬(wonCheck b .COMPUTER = true) := fun hh => h2 ((wonCheck_iff b .COMPUTER).mp hh)
  have hm : ¬(moreMoves b = true) := fun hh => by
    obtain ⟨r, c, he⟩ := (moreMoves_iff b).mp hh
    exact h3 r c he
  rw [isGameOver, if_neg hu, if_neg hc, if_neg hm]

theorem genious_center (b : Board) (s : Nat → Fin 3 × Fin 3) (fuel : Nat)
    (h : b 1 1 = .EMPTY) : ai_genious b s fuel = some (setCell b 1 1 .COMPUTER) := by
  simp only [ai_genious]
  rw [if_pos h]

theorem genious_offense (b : Board) (s : Nat → Fin 3 × Fin 3) (fuel : Nat)
    (h1 : b 1 1 ≠ .EMPTY) (r c : Fin 3) (h2 : specFind b .COMPUTER = some (r, c)) :
    ai_genious b s fuel = some (setCell b r c .COMPUTER) := by
  have hcw : computerCanWin b = toCell (r, c) := by
    have h3 := playerCanWin_eq_specFind b .COMPUTER (Or.inr rfl)
    rw [h2] at h3
    exact h3
  simp only [ai_genious, hcw, toCell_row, toCell_col]
  rw [if_neg h1, if_pos ⟨Int.natCast_nonneg _, Int.natCast_nonneg _⟩, setI_coe]

theorem genious_defense (b : Board) (s : Nat → Fin 3 × Fin 3) (fuel : Nat)
    (h1 : b 1 1 ≠ .EMPTY) (h2 : specFind b .COMPUTER = none)
    (r c : Fin 3) (h3 : specFind b .USER = some (r, c)) :
    ai_genious b s fuel = some (setCell b r c .COMPUTER) := by
  have hcw : computerCanWin b = cellOfOpt none := by
    have h4 := playerCanWin_eq_specFind b .COMPUTER (Or.inr rfl)
    rw [h2] at h4
    exact h4
  have huw : userCanWin b = toCell (r, c) := by
    have h4 := playerCanWin_eq_specFind b .USER (Or.inl rfl)
    rw [h3] at h4
    exact h4
  have hneg : ¬(0 ≤ (cellOfOpt none).row ∧ 0 ≤ (cellOfOpt none).col) := by decide
  simp only [ai_genious, hcw, huw, toCell_row, toCell_col]
  rw [if_neg h1, if_neg hneg, if_pos ⟨Int.natCast_nonneg _, Int.natCast_nonneg _⟩, setI_coe]

theorem genious_fallback (b : Board) (s : Nat → Fin 3 × Fin 3) (fuel : Nat)
    (h1 : b 1 1 ≠ .EMPTY) (h2 : specFind b .COMPUTER = none)
    (h3 : specFind b .USER = none) :
    ai_genious b s fuel = ai_smart b s fuel := by
  have hcw : computerCanWin b = cellOfOpt none := by
    have h4 := playerCanWin_eq_specFind b .COMPUTER (Or.inr rfl)
    rw [h2] at h4
    exact h4
  have huw : userCanWin b = cellOfOpt none := by
    have h4 := playerCanWin_eq_specFind b .USER (Or.inl rfl)
    rw [h3] at h4
    exact h4
  have hneg : ¬(0 ≤ (cellOfOpt none).row ∧ 0 ≤ (cellOfOpt none).col) := by decide
  simp only [ai_genious, hcw, huw]
  rw [if_neg h1, if_neg hneg, if_neg hneg]

theorem randScan_empty (b : Board) (s : Nat → Fin 3 × Fin 3) :
    ∀ fuel i q, randScan b s i fuel = some q → b q.1 q.2 = .EMPTY := by
  intro fuel
  induction fuel with
  | zero => intro i q h; simp [randScan] at h
  | succ n ih =>
    intro i q h
    rw [randScan] at h
    by_cases he : b (s i).1 (s i).2 = .EMPTY
    · rw [if_neg (by simpa using he)] at h
      obtain rfl : s i = q := Option.some.inj h
      exact he
    · rw [if_pos he] at h
      exact ih (i + 1) q h

theorem randScan_finds (b : Board) (s : Nat → Fin 3 × Fin 3) :
    ∀ fuel i, (∃ k, k < fuel ∧ b (s (i + k)).1 (s (i + k)).2 = .EMPTY) →
      ∃ q, randScan b s i fuel = some q := by
  intro fuel
  induction fuel with
  | zero =>
    rintro i ⟨k, hk, _⟩
    omega
  | succ n ih =>
    rintro i ⟨k, hk, hke⟩
    by_cases h0 : b (s i).1 (s i).2 = .EMPTY
    · exact ⟨s i, by rw [randScan, if_neg (by simpa using h0)]⟩
    · have hk0 : k ≠ 0 := by
        rintro rfl
        exact h0 (by simpa using hke)
      obtain ⟨k', rfl⟩ : ∃ k', k = k' + 1 := ⟨k - 1, by omega⟩
      obtain ⟨q, hq⟩ := ih (i + 1) ⟨k', by omega, by
        have harr : i + 1 + k' = i + (k' + 1) := by omega
        rw [harr]
        exact hke⟩
      exact ⟨q, by rw [randScan, if_pos h0]; exact hq⟩

theorem setCell_movedOne (b : Board) (r c : Fin 3) (h : b r c = .EMPTY) :
    movedOne b (setCell b r c .COMPUTER) := by
  refine ⟨r, c, h, ?_, ?_⟩
  · simp [setCell]
  · intro r' c' hne
    simp only [setCell]
    rw [if_neg hne]

theorem ai_random_movedOne (b : Board) (s : Nat → Fin 3 × Fin 3) (fuel : Nat)
    (b' : Board) (h : ai_random b s fuel = some b') : movedOne b b' := by
  unfold ai_random at h
  cases hq : randScan b s 0 fuel with
  | none => rw [hq] at h; simp at h
  | some q =>
    rw [hq] at h
    obtain rfl : setCell b q.1 q.2 .COMPUTER = b' := Option.some.inj h
    exact setCell_movedOne b q.1 q.2 (randScan_empty b s fuel 0 q hq)

theorem ai_smart_movedOne (b : Board) (s : Nat → Fin 3 × Fin 3) (fuel : Nat)
    (b' : Board) (h : ai_smart b s fuel = some b') : movedOne b b' := by
  unfold ai_smart at h
  split_ifs at h with h1 h2 h3 h4 h5
  · exact (Option.some.inj h) ▸ setCell_movedOne b 1 1 h1
  · exact (Option.some.inj h) ▸ setCell_movedOne b 0 0 h2
  · exact (Option.some.inj h) ▸ setCell_movedOne b 0 2 h3
  · exact (Option.some.inj h) ▸ setCell_movedOne b 2 0 h4
  · exact (Option.some.inj h) ▸ setCell_movedOne b 2 2 h5
  · exact ai_random_movedOne b s fuel b' h

theorem ai_genious_movedOne (b : Board) (s : Nat → Fin 3 × Fin 3) (fuel : Nat)
    (b' : Board) (h : ai_genious b s fuel = some b') : movedOne b b' := by
  by_cases h1 : b 1 1 = .EMPTY
  · rw [genious_center b s fuel h1] at h
    exact (Option.some.inj h) ▸ setCell_movedOne b 1 1 h1
  · cases hC : specFind b .COMPUTER with
    | some q =>
      obtain ⟨r, c⟩ := q
      rw [genious_offense b s fuel h1 r c hC] at h
      exact (Option.some.inj h) ▸ setCell_movedOne b r c (specFind_empty b .COMPUTER (r, c) hC)
    | none =>
      cases hU : specFind b .USER with
      | some q =>
        obtain ⟨r, c⟩ := q
        rw [genious_defense b s fuel h1 hC r c hU] at h
        exact (Option.some.inj h) ▸ setCell_movedOne b r c (specFind_empty b .USER (r, c) hU)
      | none =>
        rw [genious_fallback b s fuel h1 hC hU] at h
        exact ai_smart_movedOne b s fuel b' h

theorem sEnum_covers : ∀ q : Fin 3 × Fin 3, ∃ n, sEnum n = q := by
  rintro ⟨r, c⟩
  refine ⟨r.val + 3 * c.val, ?_⟩
  have hr := r.isLt
  have hc := c.isLt
  simp only [sEnum, Prod.ext_iff, Fin.ext_iff]
  constructor
  · show (r.val + 3 * c.val) % 3 = r.val
    omega
  · show (r.val + 3 * c.val) / 3 % 3 = c.val
    omega

/-- Claim C1: for every board with at least one EMPTY cell, the Genius
strategy follows exactly the order: claim the centre if EMPTY; else claim
the cell found by the threat detector for the computer; else claim the
cell found by the threat detector for the human; else delegate to Smart.
In particular, on the empty board Genius claims (1,1). -/
theorem C1_genious_decision_order (b : Board) (s : Nat → Fin 3 × Fin 3) (fuel : Nat)
    (hne : ∃ r c : Fin 3, b r c = .EMPTY) :
    (ai_genious b s fuel =
      if b 1 1 = .EMPTY then some (setCell b 1 1 .COMPUTER)
      else
        match specFind b .COMPUTER with
        | some q => some (setCell b q.1 q.2 .COMPUTER)
        | none =>
          match specFind b .USER with
          | some q => some (setCell b q.1 q.2 .COMPUTER)
          | none => ai_smart b s fuel) ∧
    ai_genious emptyBoard s fuel = some (setCell emptyBoard 1 1 .COMPUTER) := by
  refine ⟨?_, genious_center emptyBoard s fuel rfl⟩
  by_cases h1 : b 1 1 = .EMPTY
  · rw [if_pos h1]
    exact genious_center b s fuel h1
  · rw [if_neg h1]
    cases hC : specFind b .COMPUTER with
    | some q =>
      obtain ⟨r, c⟩ := q
      exact genious_offense b s fuel h1 r c hC
    | none =>
      cases hU : specFind b .USER with
      | some q =>
        obtain ⟨r, c⟩ := q
        exact genious_defense b s fuel h1 hC r c hU
      | none => exact genious_fallback b s fuel h1 hC hU

/-- Witness for C1 at the empty board. -/
theorem C1_witness :
    (∃ r c : Fin 3, emptyBoard r c = CellState.EMPTY) ∧
    ai_genious emptyBoard s0 0 = some (setCell emptyBoard 1 1 .COMPUTER) :=
  ⟨⟨0, 0, rfl⟩, (C1_genious_decision_order emptyBoard s0 0 ⟨0, 0, rfl⟩).2⟩

/-- Claim C2 counterexample: on the board of the claim (USER at (0,0) and
(0,1), everything else EMPTY) the centre is EMPTY, so Genius claims the
centre (1,1) and leaves (0,2) EMPTY — it does not block, although the
claim hypothesis holds: the computer has no immediate winning cell. -/
theorem C2_counterexample :
    computerCanWin bTwoUsers = ⟨-1, -1⟩ ∧
    (ai_genious bTwoUsers s0 0).map (fun bb => bb 1 1) = some CellState.COMPUTER ∧
    (ai_genious bTwoUsers s0 0).map (fun bb => bb 0 2) = some CellState.EMPTY ∧
    ai_genious bTwoUsers s0 0 ≠ some (setCell bTwoUsers 0 2 .COMPUTER) := by
  decide

/-- Claim C2 (amended): with USER at (0,0) and (0,1), COMPUTER at the
centre (so that the centre rule does not fire) and every other cell
EMPTY, the computer has no immediate winning cell and Genius claims
(0,2), blocking the human three-in-a-row. -/
theorem C2_amended_blocks (s : Nat → Fin 3 × Fin 3) (fuel : Nat) :
    computerCanWin bTwoUsersCenterB = ⟨-1, -1⟩ ∧
    ai_genious bTwoUsersCenterB s fuel = some (setCell bTwoUsersCenterB 0 2 .COMPUTER) := by
  refine ⟨by decide, ?_⟩
  exact genious_defense bTwoUsersCenterB s fuel (by decide) (by decide) 0 2 (by decide)

/-- Claim C3 counterexample: COMPUTER owns (0,0) and (0,1) with (0,2)
EMPTY and no block is needed (the user has no winning cell), yet Genius
claims the EMPTY centre (1,1), not the winning cell (0,2). -/
theorem C3_counterexample :
    lineQualifies bTwoComps .COMPUTER [(0, 0), (0, 1), (0, 2)] = true ∧
    userCanWin bTwoComps = ⟨-1, -1⟩ ∧
    (ai_genious bTwoComps s0 0).map (fun bb => bb 1 1) = some CellState.COMPUTER ∧
    (ai_genious bTwoComps s0 0).map (fun bb => bb 0 2) = some CellState.EMPTY ∧
    ai_genious bTwoComps s0 0 ≠ some (setCell bTwoComps 0 2 .COMPUTER) := by
  decide

/-- Claim C3 (amended): for every board whose centre is not EMPTY and on
which some line has exactly two COMPUTER cells and one EMPTY cell, Genius
claims the cell found by the detector (the EMPTY cell of the first such
line in scan order), regardless of any block. -/
theorem C3_amended_win_now (b : Board) (s : Nat → Fin 3 × Fin 3) (fuel : Nat)
    (h1 : b 1 1 ≠ .EMPTY) (hq : ∃ l ∈ LINES, lineQualifies b .COMPUTER l = true) :
    ∃ r c : Fin 3, specFind b .COMPUTER = some (r, c) ∧
      ai_genious b s fuel = some (setCell b r c .COMPUTER) := by
  obtain ⟨q, hsf⟩ := specFind_isSome b .COMPUTER hq
  obtain ⟨r, c⟩ := q
  exact ⟨r, c, hsf, genious_offense b s fuel h1 r c hsf⟩

/-- Witness for the amended C3. -/
theorem C3_witness :
    ∃ r c : Fin 3, specFind bTwoCompsCenterU .COMPUTER = some (r, c) ∧
      ai_genious bTwoCompsCenterU s0 0 = some (setCell bTwoCompsCenterU r c .COMPUTER) :=
  C3_amended_win_now bTwoCompsCenterU s0 0 (by decide) (by decide)

/-- Claim C4: on every board where a player owns exactly two cells of a
line whose third cell is EMPTY, the detector returns the EMPTY cell of
the first qualifying line in scan order (rows, columns, diagonals): the
returned coordinate agrees with the spec-side detector `specFind`, the
cell is EMPTY, and it lies on a qualifying line. -/
theorem C4_detector_finds_win (b : Board) (p : CellState)
    (hp : p = .USER ∨ p = .COMPUTER)
    (hq : ∃ l ∈ LINES, lineQualifies b p l = true) :
    ∃ r c : Fin 3, specFind b p = some (r, c) ∧
      playerCanWin b p.val = ⟨(r.val : Int), (c.val : Int)⟩ ∧
      b r c = .EMPTY ∧ ∃ l ∈ LINES, lineQualifies b p l = true ∧ (r, c) ∈ l := by
  obtain ⟨q, hsf⟩ := specFind_isSome b p hq
  obtain ⟨r, c⟩ := q
  refine ⟨r, c, hsf, ?_, specFind_empty b p (r, c) hsf, specFind_mem b p (r, c) hsf⟩
  have h := playerCanWin_eq_specFind b p hp
  rw [hsf] at h
  exact h

/-- Witness for C4. -/
theorem C4_witness :
    ∃ r c : Fin 3, specFind bTwoUsers .USER = some (r, c) ∧
      playerCanWin bTwoUsers CellState.USER.val = ⟨(r.val : Int), (c.val : Int)⟩ ∧
      bTwoUsers r c = .EMPTY ∧
      ∃ l ∈ LINES, lineQualifies bTwoUsers .USER l = true ∧ (r, c) ∈ l :=
  C4_detector_finds_win bTwoUsers .USER (Or.inl rfl) (by decide)

/-- Claim C5 counterexample: on the (unreachable) board where USER owns
row 0 and COMPUTER owns row 1, COMPUTER owns a complete line but the
evaluator does not return the computer win — USER is checked first. -/
theorem C5_counterexample :
    ownsLine bDoubleWin .COMPUTER ∧ isGameOver bDoubleWin ≠ COMPUTER_WON := by
  decide

/-- Claim C5 (amended): if a player owns a complete line and the other
player owns none, the evaluator returns that player win; if USER owns the
main diagonal the evaluator returns USER_WON whatever the other cells
hold; and the middle-square check of the evaluator covers exactly the 8
winning lines. -/
theorem C5_evaluator_win :
    (∀ b : Board, ∀ p : CellState, (p = .USER ∨ p = .COMPUTER) →
      ownsLine b p → ¬ ownsLine b (otherPlayer p) → isGameOver b = p.val) ∧
    (∀ b : Board, b 0 0 = .USER → b 1 1 = .USER → b 2 2 = .USER →
      isGameOver b = USER_WON) ∧
    (∀ b : Board, ∀ p : CellState, wonCheck b p = true ↔ ownsLine b p) := by
  refine ⟨?_, ?_, fun b p => wonCheck_iff b p⟩
  · rintro b p (rfl | rfl) hown hother
    · exact isGameOver_user_won b hown
    · exact isGameOver_computer_won b hother hown
  · intro b h1 h2 h3
    exact isGameOver_user_won b ((ownsLine_iff b .USER).mpr
      (Or.inr (Or.inr (Or.inr (Or.inr (Or.inr (Or.inr (Or.inl ⟨h1, h2, h3⟩))))))))

/-- Witness for the amended C5. -/
theorem C5_witness : isGameOver bUserRow = CellState.USER.val :=
  C5_evaluator_win.1 bUserRow .USER (Or.inl rfl) (by decide) (by decide)

/-- Claim C6: a full board with no completed line evaluates to DRAW; a
board with no completed line and an EMPTY cell evaluates to IN_PROGRESS;
and the player-win checks come before the draw check: a board with a
completed line never evaluates to DRAW. -/
theorem C6_draw_and_in_progress :
    (∀ b : Board, (∀ r c : Fin 3, b r c ≠ .EMPTY) → ¬ ownsLine b .USER →
      ¬ ownsLine b .COMPUTER → isGameOver b = DRAW) ∧
    (∀ b : Board, (∃ r c : Fin 3, b r c = .EMPTY) → ¬ ownsLine b .USER →
      ¬ ownsLine b .COMPUTER → isGameOver b = IN_PROGRESS) ∧
    (∀ b : Board, ∀ p : CellState, (p = .USER ∨ p = .COMPUTER) → ownsLine b p →
      isGameOver b ≠ DRAW) := by
  refine ⟨fun b hf h1 h2 => isGameOver_draw b h1 h2 hf,
    fun b hne h1 h2 => isGameOver_in_progress b h1 h2 hne, ?_⟩
  rintro b p (rfl | rfl) hown
  · rw [isGameOver_user_won b hown]
    decide
  · by_cases hu : ownsLine b .USER
    · rw [isGameOver_user_won b hu]
      decide
    · rw [isGameOver_computer_won b hu hown]
      decide

/-- Witness for C6: a concrete full drawn board and the empty board. -/
theorem C6_witness : isGameOver bDraw = DRAW ∧ isGameOver emptyBoard = IN_PROGRESS :=
  ⟨C6_draw_and_in_progress.1 bDraw (by decide) (by decide) (by decide),
   C6_draw_and_in_progress.2.1 emptyBoard ⟨0, 0, rfl⟩ (by decide) (by decide)⟩

/-- Claim C7: on every board with no line holding exactly two cells of
the player and one EMPTY cell, the detector returns the sentinel
`Cell (-1) (-1)`. -/
theorem C7_detector_none (b : Board) (p : CellState)
    (hp : p = .USER ∨ p = .COMPUTER)
    (h : ∀ l ∈ LINES, lineQualifies b p l = false) :
    playerCanWin b p.val = ⟨-1, -1⟩ := by
  have hs := specFind_none b p h
  have heq := playerCanWin_eq_specFind b p hp
  rw [hs] at heq
  exact heq

/-- Witness for C7 at the empty board. -/
theorem C7_witness : playerCanWin emptyBoard CellState.USER.val = ⟨-1, -1⟩ :=
  C7_detector_none emptyBoard .USER (Or.inl rfl) (by decide)

/-- Claim C8: whenever a strategy call returns a board, exactly one cell
changed, that cell was EMPTY before, it is COMPUTER after, and every
other cell is unchanged. -/
theorem C8_strategy_frame (b : Board) (strategy : Nat) (s : Nat → Fin 3 × Fin 3)
    (fuel : Nat) (b' : Board) (hne : ∃ r c : Fin 3, b r c = .EMPTY)
    (h : nextComputerMove b strategy s fuel = some b') : movedOne b b' := by
  unfold nextComputerMove at h
  split_ifs at h
  · exact ai_smart_movedOne b s fuel b' h
  · exact ai_genious_movedOne b s fuel b' h
  · exact ai_random_movedOne b s fuel b' h

/-- Witness for C8: the Genius move on the empty board. -/
theorem C8_witness : movedOne emptyBoard (setCell emptyBoard 1 1 .COMPUTER) :=
  C8_strategy_frame emptyBoard GENIOUS s0 0 (setCell emptyBoard 1 1 .COMPUTER)
    ⟨0, 0, rfl⟩ rfl

/-- Claim C9: on every board with an EMPTY cell, the sampling loop of the
Random strategy terminates: for any sample stream that eventually
proposes every cell (as uniform random sampling does), some finite number
of iterations suffices for `ai_random` to produce a board. -/
theorem C9_random_terminates (b : Board) (s : Nat → Fin 3 × Fin 3)
    (hcover : ∀ q : Fin 3 × Fin 3, ∃ n, s n = q)
    (hne : ∃ r c : Fin 3, b r c = .EMPTY) :
    ∃ fuel b', ai_random b s fuel = some b' := by
  obtain ⟨r, c, hrc⟩ := hne
  obtain ⟨n, hn⟩ := hcover (r, c)
  have hfind : ∃ k, k < n + 1 ∧ b (s (0 + k)).1 (s (0 + k)).2 = .EMPTY := by
    refine ⟨n, by omega, ?_⟩
    have h0 : 0 + n = n := by omega
    rw [h0, hn]
    exact hrc
  obtain ⟨q, hq⟩ := randScan_finds b s (n + 1) 0 hfind
  refine ⟨n + 1, setCell b q.1 q.2 .COMPUTER, ?_⟩
  unfold ai_random
  rw [hq]

/-- Witness for C9 with the covering stream on the empty board. -/
theorem C9_witness : ∃ fuel b', ai_random emptyBoard sEnum fuel = some b' :=
  C9_random_terminates emptyBoard sEnum sEnum_covers ⟨0, 0, rfl⟩

/-- Claim C10: on every board (reachable or not) where both players own a
complete line, the evaluator returns the user win, because USER is
checked before COMPUTER. -/
theorem C10_user_checked_first (b : Board) (h1 : ownsLine b .USER)
    (h2 : ownsLine b .COMPUTER) : isGameOver b = USER_WON :=
  isGameOver_user_won b h1

/-- Witness for C10 on the double-win board. -/
theorem C10_witness : isGameOver bDoubleWin = USER_WON :=
  C10_user_checked_first bDoubleWin (by decide) (by decide)

end TicTacToe
